import Mathlib

/-! Verification development for the handwriting-synthesis GUI generation
pipeline (`src/gui.py`).

This file shallowly embeds the parts of `gui.py` that the specification
talks about: the `textwrap.wrap` based line splitting (`split_string`,
gui.py:1642-1643), text validation in `generate_dialog` (1554-1597) and
`add_to_queue` (1422-1461), the per-line layout of `generate_writing`
(1760-1779), the whole-run control flow of `generate_writing` (1645-1859)
and the queue driver `process_queue` / `process_next_queue_item`
(1489-1523), together with theorems settling the claims about them.

Modelling conventions:
* Python strings are `List Char` (`PyStr`).
* Python ints are `Nat` / `Int`; no arithmetic here can overflow a Python
  int (Python ints are unbounded anyway).
* The float positions of the compositor (gui.py:1762-1778) are `ℚ`; the
  only non-integer operation is division by 2, on which IEEE doubles are
  exact, so `ℚ` agrees with the Python floats at every magnitude involved.
* Calls into external collaborators that can fail (`Hand.write`,
  `svg2png`, `PIL.Image.open`, file saving) are modelled by boolean
  oracles collected in `Oracles`; the live Tk control variables that the
  worker reads mid-run are modelled by a time-indexed `settingsAt`
  function (see `Env`).
-/

namespace Gui

/-- Python strings, modelled as lists of characters. -/
abbrev PyStr := List Char

/-- Helper: a Lean string literal as a `PyStr`. -/
def pys (s : String) : PyStr := s.toList

/-- Python whitespace, as used by `str.strip` / `str.split` and by the
`textwrap` whitespace table `'\t\n\x0b\x0c\r '` (gui.py inputs are limited
to the GUI's character set, which contains no other whitespace). -/
def pyIsSpace (c : Char) : Bool :=
  c = ' ' || c = '\t' || c = '\n' || c = '\r' || c = '\x0b' || c = '\x0c'

/-- Total length of a list of chunks. -/
def sumLen (l : List PyStr) : Nat := (l.map List.length).sum

@[simp] theorem sumLen_nil : sumLen [] = 0 := rfl

@[simp] theorem sumLen_cons (c : PyStr) (l : List PyStr) :
    sumLen (c :: l) = c.length + sumLen l := by
  simp [sumLen]

@[simp] theorem sumLen_append (l l' : List PyStr) :
    sumLen (l ++ l') = sumLen l + sumLen l' := by
  simp [sumLen]

/-! ## The `textwrap.wrap` embedding

`MyWindow.split_string` (gui.py:1642-1643) is `textwrap.wrap(text, length)`
with CPython's default `TextWrapper` options: `expand_tabs=True`,
`tabsize=8`, `replace_whitespace=True`, `drop_whitespace=True`,
`break_long_words=True`, `break_on_hyphens=True`, `max_lines=None`,
empty indents. The functions below follow `Lib/textwrap.py`. -/

/-- `str.expandtabs(8)` (CPython semantics): a tab advances the column to
the next multiple of `tabsize`; newline and carriage return reset the
column; every other character advances it by one. -/
def expandtabsGo (tabsize : Nat) : Nat → PyStr → PyStr
  | _, [] => []
  | col, c :: rest =>
    if c = '\t' then
      let pad := tabsize - col % tabsize
      List.replicate pad ' ' ++ expandtabsGo tabsize (col + pad) rest
    else if c = '\n' || c = '\r' then c :: expandtabsGo tabsize 0 rest
    else c :: expandtabsGo tabsize (col + 1) rest

/-- `TextWrapper._munge_whitespace`: expand tabs, then replace each
whitespace character by a single space. -/
def munge (t : PyStr) : PyStr :=
  (expandtabsGo 8 0 t).map (fun c => if pyIsSpace c then ' ' else c)

/-- Worker for `splitChunks`: accumulates the current maximal run (kept
reversed in `cur`), `curSpace` records whether it is a whitespace run. -/
def splitChunksGo (curSpace : Bool) (cur : PyStr) : PyStr → List PyStr
  | [] => [cur.reverse]
  | c :: rest =>
    if pyIsSpace c = curSpace then splitChunksGo curSpace (c :: cur) rest
    else cur.reverse :: splitChunksGo (pyIsSpace c) [c] rest

/-- The chunking of `TextWrapper._split`, specialised to text without
hyphens: maximal whitespace runs alternate with maximal non-whitespace
runs, and no chunk is empty.  (CPython's `wordsep_re` additionally splits
a non-whitespace run after internal hyphens of compound words; that
refinement only cuts non-whitespace chunks into shorter ones and is
irrelevant to every theorem below — the hyphen handling inside
`_handle_long_word`, which the length bound does depend on, is embedded
exactly in `handleLongWord`.) -/
def splitChunks : PyStr → List PyStr
  | [] => []
  | c :: rest => splitChunksGo (pyIsSpace c) [c] rest

/-- `chunk.strip() == ''` for a chunk produced by `splitChunks`. -/
def stripIsEmpty (c : PyStr) : Bool := c.all pyIsSpace

/-- The inner greedy loop of `TextWrapper._wrap_chunks`: pop chunks onto
the current line while they fit within `width`.  Returns the popped
chunks and the remaining chunks. -/
def takeGreedy (width : Nat) : Nat → List PyStr → List PyStr × List PyStr
  | _, [] => ([], [])
  | curLen, c :: rest =>
    if curLen + c.length ≤ width then
      let p := takeGreedy width (curLen + c.length) rest
      (c :: p.1, p.2)
    else ([], c :: rest)

/-- `chunk.rfind(hyphen, 0, stop)`: the greatest index `j < stop` at which
`chunk` holds a hyphen, if any. -/
def rfindHyphenGo (c : PyStr) : Nat → Option Nat
  | 0 => none
  | j + 1 => if c.get? j = some '-' then some j else rfindHyphenGo c j

/-- `TextWrapper._handle_long_word` with the default options
(`break_long_words=True`, `break_on_hyphens=True`, `max_lines=None`):
given the remaining width budget, returns the piece of the over-long
chunk appended to the current line and the remainder left in the chunk
queue. -/
def handleLongWord (width curLen : Nat) (chunk : PyStr) : PyStr × PyStr :=
  let spaceLeft := if width < 1 then 1 else width - curLen
  let stop :=
    if chunk.length > spaceLeft then
      match rfindHyphenGo chunk spaceLeft with
      | some j =>
        if 0 < j ∧ (chunk.take j).any (fun c => c ≠ '-') then j + 1 else spaceLeft
      | none => spaceLeft
    else spaceLeft
  (chunk.take stop, chunk.drop stop)

/-- The single trailing-whitespace-chunk drop of `_wrap_chunks`
(`if drop_whitespace and cur_line and cur_line[-1].strip() == ''`). -/
def dropTrailingWs : List PyStr → List PyStr
  | [] => []
  | [c] => if stripIsEmpty c then [] else [c]
  | c :: rest => c :: dropTrailingWs rest

/-- The leading-whitespace-chunk drop of `_wrap_chunks`
(`if drop_whitespace and chunks[-1].strip() == '' and lines`). -/
def dropLeadingWs (emitted : Bool) (chunks : List PyStr) : List PyStr :=
  match chunks with
  | c0 :: rest0 => if stripIsEmpty c0 && emitted then rest0 else c0 :: rest0
  | [] => []

/-- The middle of one `_wrap_chunks` iteration: fill the current line
greedily, then break the head chunk if it alone exceeds the width
(`if chunks and len(chunks[-1]) > width: self._handle_long_word(...)`).
Returns the current line's chunks and the remaining chunks. -/
def wrapFill (width : Nat) (chunks1 : List PyStr) : List PyStr × List PyStr :=
  let tg := takeGreedy width 0 chunks1
  match tg.2 with
  | [] => (tg.1, ([] : List PyStr))
  | c :: rs =>
    if c.length > width then
      let hw := handleLongWord width (sumLen tg.1) c
      (tg.1 ++ [hw.1], hw.2 :: rs)
    else (tg.1, c :: rs)

/-- One outer iteration of `_wrap_chunks` (default options): drop a
leading whitespace chunk when a line was already emitted, fill the line
greedily, break an over-long head chunk, drop a trailing whitespace
chunk, and emit the joined line if non-empty.  Returns the emitted line
(if any) and the remaining chunks. -/
def wrapStep (width : Nat) (emitted : Bool) (chunks : List PyStr) :
    Option PyStr × List PyStr :=
  let nxt := wrapFill width (dropLeadingWs emitted chunks)
  let cur := dropTrailingWs nxt.1
  (if cur.isEmpty then none else some cur.flatten, nxt.2)

/-- The outer loop of `_wrap_chunks`.  `fuel` only bounds the recursion
(each real iteration strictly decreases the total chunk length plus the
chunk count, so the fuel passed by `pyWrap` never runs out); emitted
lines are accumulated in reverse in `acc`. -/
def wrapChunksGo (width : Nat) : Nat → List PyStr → List PyStr → List PyStr
  | 0, _, acc => acc.reverse
  | _ + 1, [], acc => acc.reverse
  | fuel + 1, c0 :: rest0, acc =>
    let s := wrapStep width (!acc.isEmpty) (c0 :: rest0)
    wrapChunksGo width fuel s.2
      (match s.1 with
       | some ln => ln :: acc
       | none => acc)

/-- `textwrap.wrap(text, width)` with the default `TextWrapper` options,
as called by `split_string` (gui.py:1643).  CPython raises `ValueError`
for `width <= 0`; the theorems below therefore assume `1 ≤ width`. -/
def pyWrap (text : PyStr) (width : Nat) : List PyStr :=
  let chunks := splitChunks (munge text)
  wrapChunksGo width (sumLen chunks + chunks.length + 1) chunks []

/-- `MyWindow.split_string` (gui.py:1642-1643):
`return textwrap.wrap(text, length)`. -/
def split_string (text : PyStr) (length : Nat) : List PyStr :=
  pyWrap text length

example : split_string (pys ("abcdefghij")) 5 = [pys ("abcde"), pys ("fghij")] := by decide

example : split_string (pys ("hello world foo")) 11 = [pys ("hello world"), pys ("foo")] := by decide

example : split_string (pys ("ab   ")) 5 = [pys ("ab")] := by decide

example : split_string (pys ("     ")) 3 = [] := by decide

example : split_string (pys ("a\tb")) 5 = [pys ("a"), pys ("b")] := by decide

example : split_string (pys ("  leading")) 4 = [pys ("  le"), pys ("adin"), pys ("g")] := by decide

example : split_string (pys ("xx yyyyyyyy")) 3 =
    [pys ("xx "), pys ("yyy"), pys ("yyy"), pys ("yy")] := by decide

example : split_string (pys ("abc-def")) 4 = [pys ("abc-"), pys ("def")] := by decide

/-! ### Length bound for the wrapping -/

theorem takeGreedy_len (width : Nat) :
    ∀ (l : List PyStr) (curLen : Nat), curLen ≤ width →
      curLen + sumLen (takeGreedy width curLen l).1 ≤ width := by
  intro l
  induction l with
  | nil => intro curLen h; simpa [takeGreedy] using h
  | cons c rest ih =>
    intro curLen h
    by_cases hc : curLen + c.length ≤ width
    · have h2 := ih (curLen + c.length) hc
      simp only [takeGreedy, if_pos hc, sumLen_cons]
      omega
    · simpa [takeGreedy, hc] using h

theorem rfindHyphenGo_lt (c : PyStr) :
    ∀ (s j : Nat), rfindHyphenGo c s = some j → j < s := by
  intro s
  induction s with
  | zero => intro j h; simp [rfindHyphenGo] at h
  | succ n ih =>
    intro j h
    rw [rfindHyphenGo] at h
    by_cases hc : c.get? n = some '-'
    · rw [if_pos hc] at h
      cases h
      omega
    · rw [if_neg hc] at h
      exact Nat.lt_succ_of_lt (ih j h)

theorem handleLongWord_len (width curLen : Nat) (chunk : PyStr)
    (hw : 1 ≤ width) (hc : curLen ≤ width) :
    curLen + (handleLongWord width curLen chunk).1.length ≤ width := by
  have hnl : ¬ width < 1 := by omega
  have key : ∀ stop, stop ≤ width - curLen →
      curLen + (chunk.take stop).length ≤ width := by
    intro stop hstop
    have := List.length_take_le stop chunk
    omega
  simp only [handleLongWord, if_neg hnl]
  by_cases hlen : chunk.length > width - curLen
  · simp only [if_pos hlen]
    cases hfind : rfindHyphenGo chunk (width - curLen) with
    | none => exact key _ (le_refl _)
    | some j =>
      have hj := rfindHyphenGo_lt chunk _ _ hfind
      by_cases hcond : 0 < j ∧ (chunk.take j).any (fun c => c ≠ '-') = true
      · simp only [hfind, if_pos hcond]
        exact key (j + 1) (Nat.succ_le_of_lt hj)
      · simp only [hfind, if_neg hcond]
        exact key _ (le_refl _)
  · simp only [if_neg hlen]
    exact key _ (le_refl _)

theorem dropTrailingWs_sumLen_le :
    ∀ l : List PyStr, sumLen (dropTrailingWs l) ≤ sumLen l := by
  intro l
  induction l with
  | nil => simp [dropTrailingWs]
  | cons c rest ih =>
    cases rest with
    | nil =>
      by_cases h : stripIsEmpty c = true <;> simp [dropTrailingWs, h]
    | cons d rest2 =>
      have h3 : sumLen (dropTrailingWs (c :: d :: rest2)) =
          c.length + sumLen (dropTrailingWs (d :: rest2)) := by
        simp [dropTrailingWs]
      have h4 : sumLen (c :: d :: rest2) = c.length + sumLen (d :: rest2) := by
        simp
      omega

theorem flatten_len (l : List PyStr) : l.flatten.length = sumLen l := by
  induction l with
  | nil => rfl
  | cons c rest ih => simp [ih]

theorem wrapFill_len (width : Nat) (hw : 1 ≤ width) (chunks1 : List PyStr) :
    sumLen (wrapFill width chunks1).1 ≤ width := by
  have htg := takeGreedy_len width chunks1 0 (by omega)
  simp only [Nat.zero_add] at htg
  cases h2 : (takeGreedy width 0 chunks1).2 with
  | nil =>
    simp only [wrapFill, h2]
    exact htg
  | cons c rs =>
    by_cases hc : c.length > width
    · have hl := handleLongWord_len width (sumLen (takeGreedy width 0 chunks1).1) c hw htg
      simp only [wrapFill, h2, if_pos hc, sumLen_append, sumLen_cons, sumLen_nil]
      omega
    · simp only [wrapFill, h2, if_neg hc]
      exact htg

theorem wrapStep_len (width : Nat) (hw : 1 ≤ width) (emitted : Bool)
    (chunks : List PyStr) (ln : PyStr)
    (h : (wrapStep width emitted chunks).1 = some ln) : ln.length ≤ width := by
  simp only [wrapStep] at h
  by_cases he :
      (dropTrailingWs (wrapFill width (dropLeadingWs emitted chunks)).1).isEmpty = true
  · simp [he] at h
  · simp only [he, if_false, Bool.false_eq_true, if_neg, Option.some.injEq] at h
    subst h
    calc (dropTrailingWs (wrapFill width (dropLeadingWs emitted chunks)).1).flatten.length
        = sumLen (dropTrailingWs (wrapFill width (dropLeadingWs emitted chunks)).1) :=
          flatten_len _
      _ ≤ sumLen (wrapFill width (dropLeadingWs emitted chunks)).1 :=
          dropTrailingWs_sumLen_le _
      _ ≤ width := wrapFill_len width hw _

theorem wrapChunksGo_len (width : Nat) (hw : 1 ≤ width) :
    ∀ (fuel : Nat) (chunks acc : List PyStr),
      (∀ l ∈ acc, l.length ≤ width) →
      ∀ l ∈ wrapChunksGo width fuel chunks acc, l.length ≤ width := by
  intro fuel
  induction fuel with
  | zero =>
    intro chunks acc hacc l hl
    rw [wrapChunksGo] at hl
    exact hacc l (List.mem_reverse.mp hl)
  | succ n ih =>
    intro chunks acc hacc l hl
    cases chunks with
    | nil =>
      rw [wrapChunksGo] at hl
      exact hacc l (List.mem_reverse.mp hl)
    | cons c0 rest0 =>
      simp only [wrapChunksGo] at hl
      refine ih _ _ ?_ l hl
      intro l' hl'
      cases hs : (wrapStep width (!acc.isEmpty) (c0 :: rest0)).1 with
      | none =>
        rw [hs] at hl'
        exact hacc l' hl'
      | some ln =>
        rw [hs] at hl'
        rcases List.mem_cons.mp hl' with h | h
        · subst h
          exact wrapStep_len width hw _ _ _ hs
        · exact hacc l' h

/-! ## Character validation

`MyWindow.valid_chars` (gui.py:164), the `Q`/`X` replacement and the
validation performed by `generate_dialog` (gui.py:1554-1597, with
`auto_remove_invalid` off, its default) and by `add_to_queue`
(gui.py:1422-1461). -/

/-- `self.valid_chars` (gui.py:164), verbatim. -/
def valid_chars : List Char :=
  ['"', '6', 'G', 'b', ')', 'I', '0', 'O', 'c', '9', 'L', '8', 't', 'q', 's',
   '\x00', 'U', 'S', 'W', 'a', 'k', '2', 'B', 'M', '7', 'T', 'g', 'f', 'F',
   'P', 'l', 'E', 'v', 'y', 'j', 'Y', 'J', '-', 'R', '!', '#', '.', 'o', 'r',
   '?', 'C', '\'', '5', 'm', 'h', '4', 'A', 'u', 'p', 'w', 'n', '(', 'V',
   'd', '1', ',', 'H', 'i', 'x', ';', ':', 'z', 'K', '3', 'N', ' ', 'D', 'e',
   '\n']

/-- Python's single-character `str.replace(a, b)`. -/
def pyReplaceChar (a b : Char) (t : PyStr) : PyStr :=
  t.map (fun c => if c = a then b else c)

/-- The `.replace(Q, q).replace(X, x)` applied to the textbox contents at
gui.py:1561 (`generate_dialog`) and gui.py:1424 (`add_to_queue`). -/
def sanitizeQX (t : PyStr) : PyStr :=
  pyReplaceChar 'X' 'x' (pyReplaceChar 'Q' 'q' t)

/-- `len(joined(text.split())) != 0`: the text has at least one
non-whitespace character (gui.py:1426, 1563). -/
def hasContent (t : PyStr) : Bool := t.any (fun c => !pyIsSpace c)

/-- The two synchronous validation failures (gui.py:1427, 1434 and
gui.py:1564, 1595): empty text, or a character outside `valid_chars`. -/
inductive ValidationError
  | noText
  | invalidChar (c : Char)
deriving DecidableEq, Repr

/-- `generate_dialog` (gui.py:1554-1597) with `auto_remove_invalid` off:
replace `Q`/`X`, reject whitespace-only text, reject the first character
outside `valid_chars`, otherwise run with the sanitized text. -/
def generate_dialog_text (raw : PyStr) : Except ValidationError PyStr :=
  let text := sanitizeQX raw
  if !hasContent text then .error .noText
  else
    match text.find? (fun c => !valid_chars.contains c) with
    | some c => .error (.invalidChar c)
    | none => .ok text

/-- `add_to_queue` (gui.py:1422-1446) with `auto_remove_invalid` off: the
same replacement and checks, queueing the sanitized text on success. -/
def add_to_queue_text (raw : PyStr) : Except ValidationError PyStr :=
  let text := sanitizeQX raw
  if !hasContent text then .error .noText
  else
    match text.find? (fun c => !valid_chars.contains c) with
    | some c => .error (.invalidChar c)
    | none => .ok text

/-! ## Per-line layout (gui.py:1741, 1760-1779)

The alignment default and the obstacle-avoidance repositioning of one
line.  `self.orientation` is a Tk combobox restricted to the strings
`Left` / `Middle` / `Right` (gui.py:929-931); the code tests `== Right`
and `== Middle` and leaves the initial `x_pos = 400` otherwise.
`self.image_wrap_style` is restricted to `left` / `right` / `both`
(gui.py:194); the code tests `left` and `right` and treats anything else
as `both` (gui.py:1772-1776). -/

inductive Orientation
  | left
  | right
  | middle
deriving DecidableEq, Repr

inductive WrapStyle
  | left
  | right
  | both
deriving DecidableEq, Repr

/-- The page canvas allocated at gui.py:1741:
`Image.new(RGBA, (2400, 400 + round(line_spacing * len(synthesized_lines))))`. -/
def pageCanvasSize (lineSpacing lineCount : Nat) : Nat × Nat :=
  (2400, 400 + lineSpacing * lineCount)

/-- The default horizontal position of a line of raster width `w`
(gui.py:1763-1765): `x_pos = 400`, overwritten with `2000 - width` for
`Right` and `1000 - width / 2` for `Middle`. -/
def defaultX : Orientation → Nat → ℚ
  | .right, w => 2000 - (w : ℚ)
  | .middle, w => 1000 - (w : ℚ) / 2
  | .left, _ => 400

/-- The final horizontal position of one line (gui.py:1762-1778): the
alignment default, repositioned when image placement is active, the
line's vertical extent `[y, y + h]` meets the obstacle's vertical extent,
and the default horizontal extent `[x, x + w)` meets the obstacle's
horizontal extent.  `bounds` is `image_bounds = (left, top, right,
bottom)` from gui.py:1752, `usePlacement` is `use_image_placement` from
gui.py:1743.  (The paste at gui.py:1779 truncates this position with
`int(...)`; the claims are about the computed position.) -/
def lineXPos (usePlacement : Bool) (bounds : Option (Int × Int × Int × Int))
    (o : Orientation) (ws : WrapStyle) (w h : Nat) (yPos : Int) : ℚ :=
  let x := defaultX o w
  match bounds, usePlacement with
  | some (l, t, r, b), true =>
    if t ≤ yPos + (h : Int) ∧ yPos ≤ b then
      if x < (r : ℚ) ∧ x + (w : ℚ) > (l : ℚ) then
        match ws with
        | .left => (l : ℚ) - (w : ℚ) - 20
        | .right => (r : ℚ) + 20
        | .both =>
          if 2000 - r < l then (l : ℚ) - (w : ℚ) - 20 else (r : ℚ) + 20
      else x
    else x
  | _, _ => x

/-! ## The generation run (`generate_writing`, gui.py:1645-1859)

One end-to-end run of the pipeline.  The worker reads the live Tk control
variables at their use sites, not once at run start; the model makes that
explicit with `settingsAt : Nat → Settings`, the value of the controller's
settings at three read instants: `0` = preparation (gui.py:1667-1677),
`1` = the combine phase (gui.py:1737-1778), `2` = the save phase
(gui.py:1796-1819).  (The combine phase re-reads `orientation` and
`wrap_style` per line; the model coarsens those reads to one instant for
the whole phase, which covers exactly the executions in which the live
settings are stable within the phase.)  External failures are oracles:
`synthFails i` = `Hand.write` raises on line `i`, `rasterFails i` =
`svg2png` raises on an existing svg, `cancelFrom = some n` = the `Cancel`
button's flag (gui.py:1632) reads true from the `n`-th poll of
`self._cancel` onwards.  Polls are numbered in program order: poll 0 at
gui.py:1663, poll `1 + i` before synthesizing line `i` (gui.py:1693),
poll `1 + N + i` before rasterizing line `i` (gui.py:1719), poll
`2N + 1` at gui.py:1735 and poll `2N + 2` at gui.py:1781. -/

/-- `self.background_type` (gui.py:179): `transparent`, `white`, `color`
or `image`. -/
inductive BgType
  | transparent
  | white
  | color
  | image
deriving DecidableEq, Repr

/-- `self.export_format` (gui.py:184): `png`, `jpg` or `pdf`. -/
inductive Fmt
  | png
  | jpg
  | pdf
deriving DecidableEq, Repr

/-- The controller-owned settings the worker reads during a run. -/
structure Settings where
  maxWidth : Nat
  spacing : Nat
  orientation : Orientation
  wrapStyle : WrapStyle
  imageEnabled : Bool
  imgX : Int
  imgY : Int
  imgW : Int
  imgH : Int
  bgType : BgType
  exportFormat : Fmt
  jpgQuality : Nat
deriving DecidableEq, Repr

/-- Outcomes of the external collaborators during one run. -/
structure Oracles where
  synthFails : Nat → Bool
  rasterFails : Nat → Bool
  cancelFrom : Option Nat
  imageAvailable : Bool
  imageLoadFails : Bool
  lineW : Nat → Nat
  lineH : Nat → Nat
  bgImageSet : Bool
  bgLoadFails : Bool
  saveFails : Bool
  pdfAvailable : Bool

/-- The inputs of one `generate_writing` run. -/
structure Env where
  lines : List PyStr
  settingsAt : Nat → Settings
  orc : Oracles

/-- The entries appended to `self._errors` during a run
(gui.py:1710, 1732, 1757, 1809, 1825); per-line entries carry the
1-based line index used in the message text. -/
inductive Warning
  | synth (i : Nat)
  | raster (i : Nat)
  | imagePlacement
  | backgroundImage
  | savingOutput
deriving DecidableEq, Repr

/-- Observable outcome of one run.  `tempRemoved` records whether
`shutil.rmtree(self.tempdir, ...)` ran (gui.py:1648 or 1836); `crashed`
records an exception escaping the worker thread (no code catches it);
`placements` abstracts the composed canvas as the `(index, x, y)` paste
positions of gui.py:1779. -/
structure RunResult where
  cancelled : Bool
  crashed : Bool
  tempRemoved : Bool
  warnings : List Warning
  outputFiles : List Fmt
  placements : List (Nat × ℚ × Int)
deriving DecidableEq, Repr

/-- The value `self._cancel` reads at the `t`-th poll. -/
def cancelRead (orc : Oracles) (t : Nat) : Bool :=
  match orc.cancelFrom with
  | none => false
  | some t0 => decide (t0 ≤ t)

/-- gui.py:1670-1685: split the text into lines, word-wrap each line
longer than `max_width` with `split_string`, and replace an empty line by
the single-space placeholder. -/
def prepareLines (lines : List PyStr) (maxWidth : Nat) : List PyStr :=
  (lines.map (fun line =>
    if line.length > maxWidth then split_string line maxWidth
    else [if line.isEmpty then [' '] else line])).flatten

/-- The synthesis loop (gui.py:1692-1712): poll the cancel flag, then call
`Hand.write` for line `i`, recording a warning on failure (in which case
no `i.svg` is produced) and the svg index on success.  `.error ws` is the
`bail_out(); return` path with warnings `ws` accumulated so far. -/
def synthLoop (orc : Oracles) :
    Nat → Nat → List PyStr → List Warning → List Nat →
    Except (List Warning) (Nat × List Warning × List Nat)
  | _, t, [], ws, svgs => .ok (t, ws, svgs)
  | i, t, _ :: rest, ws, svgs =>
    if cancelRead orc t then .error ws
    else if orc.synthFails i then
      synthLoop orc (i + 1) (t + 1) rest (ws ++ [.synth (i + 1)]) svgs
    else synthLoop orc (i + 1) (t + 1) rest ws (svgs ++ [i])

/-- The rasterization loop (gui.py:1718-1733): poll the cancel flag; a
single-space placeholder line gets a blank 2000 x 120 png; otherwise
`svg2png` succeeds only if `i.svg` exists and the conversion itself does
not fail, else a warning is recorded and no `i.png` is produced. -/
def rasterLoop (orc : Oracles) (svgs : List Nat) :
    Nat → Nat → List PyStr → List Warning → List Nat →
    Except (List Warning) (Nat × List Warning × List Nat)
  | _, t, [], ws, pngs => .ok (t, ws, pngs)
  | i, t, l :: rest, ws, pngs =>
    if cancelRead orc t then .error ws
    else if l = [' '] then rasterLoop orc svgs (i + 1) (t + 1) rest ws (pngs ++ [i])
    else if svgs.contains i && !orc.rasterFails i then
      rasterLoop orc svgs (i + 1) (t + 1) rest ws (pngs ++ [i])
    else rasterLoop orc svgs (i + 1) (t + 1) rest (ws ++ [.raster (i + 1)]) pngs

/-- gui.py:1743-1758: image placement.  An obstacle is registered only
when placement is enabled, the path is set and exists, and loading,
resizing and pasting succeed; any exception records a warning and resets
`image_bounds` to `None`. -/
def placementStep (s : Settings) (orc : Oracles) (ws : List Warning) :
    List Warning × Option (Int × Int × Int × Int) :=
  if s.imageEnabled && orc.imageAvailable then
    if orc.imageLoadFails then (ws ++ [.imagePlacement], none)
    else (ws, some (s.imgX, s.imgY, s.imgX + s.imgW, s.imgY + s.imgH))
  else (ws, none)

/-- The raster dimensions the combine loop observes for line `i`
(gui.py:1761): the blank placeholder png is exactly 2000 x 120
(gui.py:1728); other dimensions come from the external rasterizer. -/
def lineDims (orc : Oracles) (sl : List PyStr) (i : Nat) : Nat × Nat :=
  if sl.get? i = some [' '] then (2000, 120) else (orc.lineW i, orc.lineH i)

/-- The combine loop (gui.py:1760-1779): open `i.png` for every line in
index order and paste it at its computed position.  `Image.open` on a
missing png raises `FileNotFoundError`, which nothing catches: the loop
is not wrapped in try/except, so the result is `none` (worker crash). -/
def composeGo (s : Settings) (orc : Oracles) (bounds : Option (Int × Int × Int × Int))
    (pngs : List Nat) (sl : List PyStr) :
    List Nat → Option (List (Nat × ℚ × Int))
  | [] => some []
  | i :: rest =>
    if pngs.contains i then
      let d := lineDims orc sl i
      let y : Int := (s.spacing : Int) * ((i : Int) + 1)
      let x := lineXPos s.imageEnabled bounds s.orientation s.wrapStyle d.1 d.2 y
      match composeGo s orc bounds pngs sl rest with
      | some ps => some ((i, x, y) :: ps)
      | none => none
    else none

/-- gui.py:1800-1811: background compositing; a background image that
fails to load records a warning and falls back to the solid fill. -/
def bgStep (s : Settings) (orc : Oracles) (ws : List Warning) : List Warning :=
  if s.bgType ≠ BgType.transparent then
    if s.bgType = BgType.image && orc.bgImageSet then
      if orc.bgLoadFails then ws ++ [.backgroundImage] else ws
    else ws
  else ws

/-- gui.py:1813-1825: save in the selected format.  A save exception is
caught and recorded as a warning (no output); `pdf` is attempted only
when `PDF_AVAILABLE` (otherwise nothing is written and nothing logged). -/
def saveStep (s : Settings) (orc : Oracles) (ws : List Warning) :
    List Warning × List Fmt :=
  match s.exportFormat with
  | .png => if orc.saveFails then (ws ++ [.savingOutput], []) else (ws, [.png])
  | .jpg => if orc.saveFails then (ws ++ [.savingOutput], []) else (ws, [.jpg])
  | .pdf =>
    if orc.pdfAvailable then
      if orc.saveFails then (ws ++ [.savingOutput], []) else (ws, [.pdf])
    else (ws, [])

/-- The `bail_out(); return` exit (gui.py:1646-1657, 1663, 1693, 1719,
1735, 1781): the temp dir is removed, no output is written. -/
def bailResult (ws : List Warning) : RunResult :=
  { cancelled := true, crashed := false, tempRemoved := true,
    warnings := ws, outputFiles := [], placements := [] }

/-- An exception escaping the worker thread: the run dies after the temp
dir was created (gui.py:1673-1674) and before the `shutil.rmtree` at
gui.py:1836, so the temp dir is leaked and nothing is written. -/
def crashResult (ws : List Warning) : RunResult :=
  { cancelled := false, crashed := true, tempRemoved := false,
    warnings := ws, outputFiles := [], placements := [] }

/-- `MyWindow.generate_writing` (gui.py:1645-1846), as one run.
Per-phase notes:
* poll 0 is the check at gui.py:1663;
* `synthesized_lines` is built at gui.py:1679-1685; if it is empty the
  statement `proglength = 60/len(synthesized_lines)` (gui.py:1687)
  raises `ZeroDivisionError`, uncaught — a crash;
* the synthesis and rasterization loops, the gui.py:1735 poll, image
  placement, the combine loop, the gui.py:1781 poll, background and save
  follow in program order;
* on normal completion the temp dir is removed (gui.py:1836). -/
def run (e : Env) : RunResult :=
  let s0 := e.settingsAt 0
  if cancelRead e.orc 0 then bailResult []
  else
    let sl := prepareLines e.lines s0.maxWidth
    if sl.isEmpty then crashResult []
    else
      match synthLoop e.orc 0 1 sl [] [] with
      | .error ws => bailResult ws
      | .ok (t1, ws1, svgs) =>
        match rasterLoop e.orc svgs 0 t1 sl ws1 [] with
        | .error ws => bailResult ws
        | .ok (t2, ws2, pngs) =>
          if cancelRead e.orc t2 then bailResult ws2
          else
            let s1 := e.settingsAt 1
            let pb := placementStep s1 e.orc ws2
            match composeGo s1 e.orc pb.2 pngs sl (List.range sl.length) with
            | none => crashResult pb.1
            | some pls =>
              if cancelRead e.orc (t2 + 1) then bailResult pb.1
              else
                let s2 := e.settingsAt 2
                let so := saveStep s2 e.orc (bgStep s2 e.orc pb.1)
                { cancelled := false, crashed := false, tempRemoved := true,
                  warnings := so.1, outputFiles := so.2, placements := pls }

/-! ## The queue driver (gui.py:1489-1523, 1848-1859)

`process_queue` sets `processing_queue`, resets `current_queue_index` to
0, disables the controls and starts `process_next_queue_item`, which
launches `generate_writing(is_queue_item=True)` for the current item.
On normal completion `generate_writing` advances the index by one and
either chains the next item or finishes the queue; on cancellation
`bail_out(); return` runs instead (gui.py:1693): it re-enables the
controls (gui.py:1657) but neither advances the index, nor resets
`processing_queue`, nor chains `process_next_queue_item` — the rest of
the queue simply never runs. -/

/-- Queue-machine state: the queue length (items are identified by their
position), `current_queue_index`, `processing_queue`, whether the
controls are enabled, and the positions whose runs produced output. -/
structure QueueState where
  len : Nat
  idx : Nat
  processing : Bool
  controlsEnabled : Bool
  outputs : List Nat
deriving DecidableEq, Repr

/-- The chained runs started by `process_next_queue_item`.  `cancel k`
says the user cancels during item `k`'s run.  `fuel` only bounds the
recursion (the index grows strictly, so `len + 1` steps suffice). -/
def runQueueFrom (cancel : Nat → Bool) : Nat → QueueState → QueueState
  | 0, st => st
  | fuel + 1, st =>
    if st.idx < st.len then
      if cancel st.idx then
        { st with controlsEnabled := true }
      else
        let st1 : QueueState :=
          { st with outputs := st.outputs ++ [st.idx], idx := st.idx + 1 }
        if st1.idx < st1.len then runQueueFrom cancel fuel st1
        else { st1 with processing := false, controlsEnabled := true }
    else { st with processing := false, controlsEnabled := true }

/-- `process_queue` (gui.py:1489-1502): refuses an empty queue, else sets
`processing_queue`, index 0, disables controls and drives the runs. -/
def process_queue (len : Nat) (cancel : Nat → Bool) : QueueState :=
  if len = 0 then
    { len := 0, idx := 0, processing := false, controlsEnabled := true, outputs := [] }
  else
    runQueueFrom cancel (len + 1)
      { len := len, idx := 0, processing := true, controlsEnabled := false, outputs := [] }

/-! ## Concrete scenarios used by the claim theorems -/

/-- No external failures, no cancellation, 100 x 50 line rasters. -/
def benignOracles : Oracles :=
  { synthFails := fun _ => false, rasterFails := fun _ => false,
    cancelFrom := none, imageAvailable := false, imageLoadFails := false,
    lineW := fun _ => 100, lineH := fun _ => 50, bgImageSet := false,
    bgLoadFails := false, saveFails := false, pdfAvailable := true }

/-- A representative settings snapshot (all values the GUI can produce). -/
def baseSettings : Settings :=
  { maxWidth := 75, spacing := 100, orientation := .left, wrapStyle := .both,
    imageEnabled := false, imgX := 0, imgY := 0, imgW := 0, imgH := 0,
    bgType := .white, exportFormat := .png, jpgQuality := 95 }

/-- Five one-character lines; `Hand.write` raises on line index 2
(1-based line 3); nothing else fails. -/
def envC2 : Env :=
  { lines := [pys ("a"), pys ("b"), pys ("c"), pys ("d"), pys ("e")],
    settingsAt := fun _ => baseSettings,
    orc := { benignOracles with synthFails := fun i => decide (i = 2) } }

/-- Three lines; `svg2png` raises on line index 1; nothing else fails. -/
def envC4 : Env :=
  { lines := [pys ("a"), pys ("b"), pys ("c")],
    settingsAt := fun _ => baseSettings,
    orc := { benignOracles with rasterFails := fun i => decide (i = 1) } }

/-- One line, stable settings throughout the run. -/
def envC9a : Env :=
  { lines := [pys ("hi")], settingsAt := fun _ => baseSettings,
    orc := benignOracles }

/-- Same start settings and inputs as `envC9a`, but the controller's
alignment is switched to `Right` after the run has started and before
the combine phase reads it. -/
def envC9b : Env :=
  { lines := [pys ("hi")],
    settingsAt := fun t =>
      if t = 1 then { baseSettings with orientation := .right } else baseSettings,
    orc := benignOracles }

/-! ## Claim theorems -/

/-- Claim C1, counterexample.  Enqueue A, B, C (positions 0, 1, 2), start
the queue, cancel during B's run: the code's `bail_out(); return`
(gui.py:1646-1657, 1693) neither advances `current_queue_index` nor
chains `process_next_queue_item`, so the final state still has index 1,
C produced no output, and `processing_queue` is still set — refuting
"the queue index still advances by exactly one, C runs afterward and
produces output, and the queue returns to Idle after C". -/
theorem C1_counterexample :
    process_queue 3 (fun i => decide (i = 1)) =
      { len := 3, idx := 1, processing := true, controlsEnabled := true,
        outputs := [0] } ∧
    ¬ (2 ∈ (process_queue 3 (fun i => decide (i = 1))).outputs ∧
        (process_queue 3 (fun i => decide (i = 1))).processing = false) := by
  constructor
  · rfl
  · decide

/-- Claim C2 (code bug), evaluating the code at the failing input.  With
five lines and synthesis of line 3 failing, the run records TWO warnings
for line 3 (`Synthesize line 3` at gui.py:1710, then `Rasterize line 3`
at gui.py:1732 because `2.svg` does not exist), and then crashes in the
combine loop: `Image.open(.../2.png)` (gui.py:1761) raises an uncaught
`FileNotFoundError`, so no output file is produced — not "output files
with the other 4 lines composited" and a single warning entry. -/
theorem C2_failing_run :
    run envC2 =
      { cancelled := false, crashed := true, tempRemoved := false,
        warnings := [.synth 3, .raster 3], outputFiles := [],
        placements := [] } := by
  rfl

/-- Claim C4, counterexample.  When `svg2png` fails on line 1 the combine
loop crashes on the missing `1.png`, and the run dies with the temp dir
still on disk: there is no try/finally around the pipeline, so the
`shutil.rmtree` at gui.py:1836 is never reached — refuting "removed on
every exit path ... and an exception raised in any later pipeline
stage". -/
theorem C4_counterexample :
    (run envC4).crashed = true ∧ (run envC4).tempRemoved = false := by
  constructor <;> rfl

/-- Claim C9, counterexample.  Two runs with identical text, identical
oracles and identical settings at run start differ in their composed
placements when one of them has the alignment changed mid-run: the
worker reads `self.orientation.get()` live in the combine loop
(gui.py:1764-1765), there is no snapshot. -/
theorem C9_counterexample :
    envC9a.lines = envC9b.lines ∧ envC9a.orc = envC9b.orc ∧
    envC9a.settingsAt 0 = envC9b.settingsAt 0 ∧
    run envC9a ≠ run envC9b := by
  refine ⟨rfl, rfl, rfl, ?_⟩
  intro h
  have h1 : (run envC9a).placements = [(0, defaultX .left 100, 100)] := rfl
  have h2 : (run envC9b).placements = [(0, defaultX .right 100, 100)] := rfl
  rw [h, h2] at h1
  norm_num [defaultX] at h1

/-- Driving the queue into a cancellation: if the user cancels during
item `k`'s run (and not earlier), the chain of runs stops there with the
index still at `k`, `processing_queue` untouched, controls re-enabled,
and outputs exactly for the items before `k`. -/
theorem runQueueFrom_cancel (cancel : Nat → Bool) (len k : Nat)
    (hk : k < len) (hc : cancel k = true) :
    ∀ (fuel j : Nat) (pr ce : Bool) (outs : List Nat),
      j ≤ k → k - j < fuel → (∀ i, j ≤ i → i < k → cancel i = false) →
      runQueueFrom cancel fuel
          { len := len, idx := j, processing := pr, controlsEnabled := ce,
            outputs := outs } =
        { len := len, idx := k, processing := pr, controlsEnabled := true,
          outputs := outs ++ List.range' j (k - j) } := by
  intro fuel
  induction fuel with
  | zero =>
    intro j pr ce outs hj hf hprev
    omega
  | succ n ih =>
    intro j pr ce outs hj hf hprev
    have hjlen : j < len := Nat.lt_of_le_of_lt hj hk
    by_cases hjk : j = k
    · subst hjk
      have hsub : j - j = 0 := by omega
      simp [runQueueFrom, hjlen, hc, hsub]
    · have hjk' : j < k := Nat.lt_of_le_of_ne hj hjk
      have hcj : cancel j = false := hprev j (Nat.le_refl j) hjk'
      have hj1 : j + 1 < len := Nat.lt_of_le_of_lt hjk' hk
      have hrec := ih (j + 1) pr ce (outs ++ [j]) (by omega) (by omega)
        (fun i h1 h2 => hprev i (by omega) h2)
      simp only [runQueueFrom, if_pos hjlen, hcj, Bool.false_eq_true, if_false,
        if_pos hj1]
      rw [hrec]
      have hsplit : k - j = (k - (j + 1)) + 1 := by omega
      rw [hsplit, List.range'_succ]
      simp

/-- Claim C1, amended: after a cancelled run the queue does NOT advance.
If jobs are enqueued and the queue started, and the user cancels during
item `k`'s run, then the chain stops with the index still at `k`, only
items `0..k-1` produced output, `processing_queue` is still true (the
queue state is never reset), controls are re-enabled, and the remaining
queue is left untouched (the model's `len` is unchanged); the later
items never run. -/
theorem C1_amended (len k : Nat) (cancel : Nat → Bool)
    (hk : k < len) (hc : cancel k = true)
    (hprev : ∀ i, i < k → cancel i = false) :
    process_queue len cancel =
      { len := len, idx := k, processing := true, controlsEnabled := true,
        outputs := List.range k } := by
  have hlen : ¬ len = 0 := by omega
  rw [process_queue, if_neg hlen]
  rw [runQueueFrom_cancel cancel len k hk hc (len + 1) 0 true false []
    (Nat.zero_le k) (by omega) (fun i _ h2 => hprev i h2)]
  simp [List.range_eq_range']

/-- Claim C1, witness: the amended statement at the concrete A, B, C
scenario with a cancellation during item 1 (job B). -/
theorem C1_witness :
    (1 < 3 ∧ (fun i => decide (i = 1)) 1 = true ∧
      (∀ i, i < 1 → (fun i => decide (i = 1)) i = false)) ∧
    process_queue 3 (fun i => decide (i = 1)) =
      { len := 3, idx := 1, processing := true, controlsEnabled := true,
        outputs := List.range 1 } :=
  ⟨⟨by decide, by decide, by decide⟩,
    C1_amended 3 1 (fun i => decide (i = 1)) (by decide) (by decide) (by decide)⟩

/-- If the cancel flag becomes true at poll `t0` and the synthesis loop
still has a line to process at that poll, it bails out. -/
theorem synthLoop_bails (orc : Oracles) (t0 : Nat)
    (hc : orc.cancelFrom = some t0) :
    ∀ (l : List PyStr) (i t : Nat) (ws : List Warning) (svgs : List Nat),
      t ≤ t0 → t0 < t + l.length →
      ∃ ws', synthLoop orc i t l ws svgs = .error ws' := by
  intro l
  induction l with
  | nil =>
    intro i t ws svgs h1 h2
    simp only [List.length_nil] at h2
    omega
  | cons c rest ih =>
    intro i t ws svgs h1 h2
    by_cases ht : t = t0
    · subst ht
      have hcr : cancelRead orc t = true := by simp [cancelRead, hc]
      exact ⟨ws, by simp [synthLoop, hcr]⟩
    · have htlt : t < t0 := Nat.lt_of_le_of_ne h1 ht
      have hcr : cancelRead orc t = false := by
        simp only [cancelRead, hc, decide_eq_false_iff_not]
        omega
      have hlen : t0 < (t + 1) + rest.length := by
        simp only [List.length_cons] at h2
        omega
      by_cases hsf : orc.synthFails i = true
      · have := ih (i + 1) (t + 1) (ws ++ [.synth (i + 1)]) svgs (by omega) hlen
        simpa [synthLoop, hcr, hsf] using this
      · have := ih (i + 1) (t + 1) ws (svgs ++ [i]) (by omega) hlen
        simpa [synthLoop, hcr, hsf] using this

/-- Claim C3: cancellation observed at the poll before synthesizing line
`k` (0-based) of `N`, with `k < N`, makes the run bail out: it reports
cancelled, writes no output files, removes the temporary directory
(`bail_out`, gui.py:1646-1650), and does not crash. -/
theorem C3_theorem (lines : List PyStr) (sAt : Nat → Settings)
    (orc : Oracles) (N k : Nat)
    (hN : (prepareLines lines (sAt 0).maxWidth).length = N)
    (hk : k < N) (hc : orc.cancelFrom = some (k + 1)) :
    (run { lines := lines, settingsAt := sAt, orc := orc }).cancelled = true ∧
    (run { lines := lines, settingsAt := sAt, orc := orc }).outputFiles = [] ∧
    (run { lines := lines, settingsAt := sAt, orc := orc }).tempRemoved = true ∧
    (run { lines := lines, settingsAt := sAt, orc := orc }).crashed = false := by
  have h0 : cancelRead orc 0 = false := by
    simp [cancelRead, hc]
  have hne : (prepareLines lines (sAt 0).maxWidth).isEmpty = false := by
    cases hp : prepareLines lines (sAt 0).maxWidth with
    | nil => rw [hp] at hN; simp at hN; omega
    | cons a as => rfl
  obtain ⟨ws', hsl⟩ := synthLoop_bails orc (k + 1) hc
    (prepareLines lines (sAt 0).maxWidth) 0 1 [] [] (by omega) (by omega)
  refine ⟨?_, ?_, ?_, ?_⟩ <;> simp [run, h0, hne, hsl, bailResult]

/-- Three short lines, cancel flag raised at poll 2 (the check before
synthesizing line index 1, i.e. during line 2 of 3). -/
def envC3 : Env :=
  { lines := [pys ("a"), pys ("b"), pys ("c")],
    settingsAt := fun _ => baseSettings,
    orc := { benignOracles with cancelFrom := some 2 } }

/-- Claim C3, witness: the theorem at the concrete `envC3` scenario. -/
theorem C3_witness :
    ((prepareLines envC3.lines (envC3.settingsAt 0).maxWidth).length = 3 ∧
      1 < 3 ∧ envC3.orc.cancelFrom = some 2) ∧
    ((run envC3).cancelled = true ∧ (run envC3).outputFiles = [] ∧
      (run envC3).tempRemoved = true ∧ (run envC3).crashed = false) :=
  ⟨⟨rfl, by decide, rfl⟩,
    C3_theorem envC3.lines envC3.settingsAt envC3.orc 3 1 rfl (by decide) rfl⟩

/-- Claim C4, amended: the temporary directory is removed on every exit
path that does not crash the worker — success, finished-with-warnings,
every cancellation bail-out, and a caught save failure — but an
exception escaping the combine stage (or the empty-lines division)
crashes the worker with the temp dir left on disk. -/
theorem C4_amended (e : Env) :
    (run e).tempRemoved = true ∨ (run e).crashed = true := by
  simp only [run]
  repeat' split
  all_goals simp [bailResult, crashResult]

/-- Claim C5, counterexample: a single word longer than the limit is NOT
placed unbroken on its own overflowing sub-line — `textwrap.wrap` breaks
long words by default, so `split_string` cuts a 10-character word at
width 5 into two sub-lines and the unbroken word appears nowhere. -/
theorem C5_counterexample :
    split_string (pys ("abcdefghij")) 5 = [pys ("abcde"), pys ("fghij")] ∧
    pys ("abcdefghij") ∉ split_string (pys ("abcdefghij")) 5 := by
  constructor <;> decide

/-- Claim C5, amended: greedy word-wrapping never produces a sub-line
longer than `maxLineWidth`, with no exception — a word longer than the
limit is broken across sub-lines (`break_long_words`), never allowed to
overflow.  (`textwrap.wrap` raises `ValueError` on width 0, hence the
hypothesis.) -/
theorem C5_theorem (text : PyStr) (width : Nat) (hw : 1 ≤ width) :
    ∀ l ∈ split_string text width, l.length ≤ width := by
  intro l hl
  exact wrapChunksGo_len width hw _ _ [] (by simp) l hl

/-- Claim C5, witness: the amended bound at a concrete wrapped text. -/
theorem C5_witness :
    1 ≤ 5 ∧ ∀ l ∈ split_string (pys ("the quick brown fox")) 5, l.length ≤ 5 :=
  ⟨by decide, C5_theorem (pys ("the quick brown fox")) 5 (by decide)⟩

/-- Claim C6, counterexample: the page canvas is indeed 2400 px wide
(gui.py:1741), but the alignment defaults are computed against 2000/1000
(gui.py:1764-1765), not against the page width 2400 and page center
1200: for a line of raster width 200, Right alignment yields 1800, not
2400 − 200 = 2200, and Middle yields 900, not 1200 − 100 = 1100. -/
theorem C6_counterexample :
    (pageCanvasSize 100 3).1 = 2400 ∧
    defaultX .left 200 = 400 ∧
    defaultX .right 200 = 1800 ∧ ¬ defaultX .right 200 = 2400 - 200 ∧
    defaultX .middle 200 = 900 ∧ ¬ defaultX .middle 200 = 1200 - (200 : ℚ) / 2 := by
  refine ⟨rfl, rfl, ?_, ?_, ?_, ?_⟩ <;> norm_num [defaultX]

/-- Claim C6, amended: on the fixed 2400-px-wide canvas the default
horizontal position is 400 for Left, `2000 − lineWidth` for Right and
`1000 − lineWidth/2` for Middle (gui.py:1763-1765) — the right margin
and centre used are 2000 and 1000, not the page width and page centre. -/
theorem C6_amended (w : Nat) :
    defaultX .left w = 400 ∧ defaultX .right w = 2000 - (w : ℚ) ∧
    defaultX .middle w = 1000 - (w : ℚ) / 2 :=
  ⟨rfl, rfl, rfl⟩

/-- Claim C7: for the obstacle `x ∈ [400, 700], y ∈ [200, 500]` and a
colliding line with default slot `x = 400, y = 300, width = 200`
(any line height), wrap style `right` yields `x = 700 + 20 = 720 ≥ 720`
and wrap style `left` yields `x = 400 − 200 − 20 = 180`, so
`x + width = 380 ≤ 380` (gui.py:1767-1778). -/
theorem C7_theorem (h : Nat) :
    720 ≤ lineXPos true (some (400, 200, 700, 500)) .left .right 200 h 300 ∧
    lineXPos true (some (400, 200, 700, 500)) .left .left 200 h 300 + 200 ≤ 380 := by
  constructor <;>
  · simp only [lineXPos, defaultX]
    split
    · split
      · norm_num
      · rename_i hcon
        exact absurd ⟨by norm_num, by norm_num⟩ hcon
    · rename_i hcon
      exact absurd ⟨by omega, by omega⟩ hcon

/-- Claim C8, counterexample: for the obstacle `x ∈ [250, 1800]` and a
colliding line (default `x = 400`, width 200), the code's tie-break
`img_left > 2000 - img_right` (gui.py:1777) routes the line LEFT
(`x = 250 - 200 - 20 = 30`), although the space left of the obstacle
(250) does not exceed the space right of it measured on the 2400-px page
(2400 − 1800 = 600): "routed left iff more room on the left of the page"
is false. -/
theorem C8_counterexample :
    lineXPos true (some (250, 200, 1800, 500)) .left .both 200 100 300 = 30 ∧
    ¬ (lineXPos true (some (250, 200, 1800, 500)) .left .both 200 100 300 =
          (250 : ℚ) - 200 - 20 ↔ (2400 - (1800 : ℚ) < 250)) := by
  have h1 : lineXPos true (some (250, 200, 1800, 500)) .left .both 200 100 300 = 30 := by
    simp only [lineXPos, defaultX]
    split
    · split
      · norm_num
      · rename_i hcon
        exact absurd ⟨by norm_num, by norm_num⟩ hcon
    · rename_i hcon
      exact absurd ⟨by norm_num, by norm_num⟩ hcon
  refine ⟨h1, ?_⟩
  rw [h1]
  norm_num

/-- Claim C8, amended: a colliding line with wrap style `both` is routed
to the left of the obstacle iff `obstacleLeft > 2000 − obstacleRight` —
the room right of the obstacle is measured to x = 2000, not to the
2400-px page edge; otherwise it is routed right.  The choice uses only
the obstacle bounds and this line's default extent (the collision test),
independently per line. -/
theorem C8_amended (l t r b : Int) (o : Orientation) (w h : Nat) (y : Int)
    (hv : t ≤ y + (h : Int) ∧ y ≤ b)
    (hh : defaultX o w < (r : ℚ) ∧ defaultX o w + (w : ℚ) > (l : ℚ)) :
    lineXPos true (some (l, t, r, b)) o .both w h y =
      if 2000 - r < l then (l : ℚ) - (w : ℚ) - 20 else (r : ℚ) + 20 := by
  simp only [lineXPos]
  rw [if_pos hv, if_pos hh]

/-- Claim C8, witness: the amended tie-break at the concrete obstacle
`x ∈ [250, 1800]` with a colliding Left-aligned line of width 200. -/
theorem C8_witness :
    (((200 : Int) ≤ 300 + ((100 : Nat) : Int) ∧ (300 : Int) ≤ 500) ∧
      (defaultX .left 200 < ((1800 : Int) : ℚ) ∧
        defaultX .left 200 + ((200 : Nat) : ℚ) > ((250 : Int) : ℚ))) ∧
    lineXPos true (some (250, 200, 1800, 500)) .left .both 200 100 300 =
      if 2000 - (1800 : Int) < 250 then ((250 : Int) : ℚ) - ((200 : Nat) : ℚ) - 20
      else ((1800 : Int) : ℚ) + 20 :=
  ⟨⟨⟨by norm_num, by norm_num⟩, ⟨by norm_num [defaultX], by norm_num [defaultX]⟩⟩,
    C8_amended 250 200 1800 500 .left 200 100 300 ⟨by norm_num, by norm_num⟩
      ⟨by norm_num [defaultX], by norm_num [defaultX]⟩⟩

/-- Claim C9, amended: the worker reads the live settings at use sites,
so the output is determined by the values read during the run; in
particular two runs whose settings histories are constant (nothing is
changed mid-run) and agree at run start produce identical results. -/
theorem C9_amended (lines : List PyStr) (orc : Oracles) (hA hB : Nat → Settings)
    (hcA : ∀ t, hA t = hA 0) (hcB : ∀ t, hB t = hB 0) (h0 : hA 0 = hB 0) :
    run { lines := lines, settingsAt := hA, orc := orc } =
      run { lines := lines, settingsAt := hB, orc := orc } := by
  have hAB : hA = hB := funext fun t => by rw [hcA t, hcB t, h0]
  rw [hAB]

/-- Claim C9, witness: the amended statement for two constant settings
histories starting from `baseSettings` (the environment `envC9a`). -/
theorem C9_witness :
    ((∀ t : Nat, envC9a.settingsAt t = envC9a.settingsAt 0) ∧
      envC9a.settingsAt 0 = envC9a.settingsAt 0) ∧
    run envC9a = run envC9a :=
  ⟨⟨fun _ => rfl, rfl⟩,
    C9_amended [pys ("hi")] benignOracles (fun _ => baseSettings)
      (fun _ => baseSettings) (fun _ => rfl) (fun _ => rfl) rfl⟩

/-- The combined effect of `.replace(Q, q).replace(X, x)` on one
character. -/
def mapQX (c : Char) : Char :=
  if c = 'Q' then 'q' else if c = 'X' then 'x' else c

theorem sanitizeQX_eq_map (t : PyStr) : sanitizeQX t = t.map mapQX := by
  simp only [sanitizeQX, pyReplaceChar, List.map_map]
  congr 1
  funext c
  by_cases h1 : c = 'Q'
  · subst h1; decide
  · by_cases h2 : c = 'X'
    · subst h2; decide
    · simp [Function.comp, mapQX, h1, h2]

theorem mapQX_ne (c : Char) : mapQX c ≠ 'Q' ∧ mapQX c ≠ 'X' := by
  unfold mapQX
  by_cases h1 : c = 'Q'
  · subst h1; exact ⟨by decide, by decide⟩
  · by_cases h2 : c = 'X'
    · subst h2; exact ⟨by decide, by decide⟩
    · rw [if_neg h1, if_neg h2]
      exact ⟨h1, h2⟩

theorem mapQX_valid (c : Char) (hc : c ∈ valid_chars ∨ c = 'Q' ∨ c = 'X') :
    mapQX c ∈ valid_chars := by
  by_cases h1 : c = 'Q'
  · subst h1; decide
  · by_cases h2 : c = 'X'
    · subst h2; decide
    · simp only [mapQX, if_neg h1, if_neg h2]
      rcases hc with h | h | h
      · exact h
      · exact absurd h h1
      · exact absurd h h2

theorem pyIsSpace_mapQX (c : Char) : pyIsSpace (mapQX c) = pyIsSpace c := by
  by_cases h1 : c = 'Q'
  · subst h1; decide
  · by_cases h2 : c = 'X'
    · subst h2; decide
    · simp [mapQX, h1, h2]

theorem hasContent_sanitizeQX (t : PyStr) :
    hasContent (sanitizeQX t) = hasContent t := by
  rw [sanitizeQX_eq_map]
  simp only [hasContent, List.any_map]
  congr 1
  funext c
  simp [Function.comp, pyIsSpace_mapQX]

/-- Claim C10: `Q` is not in `valid_chars` and `X` is not in
`valid_chars`, yet both submission paths (`generate_dialog`,
gui.py:1561, and `add_to_queue`, gui.py:1424) first replace `Q` by `q`
and `X` by `x`, so any non-empty text over `valid_chars ∪ {Q, X}` passes
validation in both paths — and when it contains `Q` or `X` the text that
is synthesized differs from the submitted text. -/
theorem C10_theorem (raw : PyStr)
    (hchars : ∀ c ∈ raw, c ∈ valid_chars ∨ c = 'Q' ∨ c = 'X')
    (hcontent : hasContent raw = true)
    (hqx : 'Q' ∈ raw ∨ 'X' ∈ raw) :
    ('Q' ∉ valid_chars ∧ 'X' ∉ valid_chars) ∧
    generate_dialog_text raw = .ok (sanitizeQX raw) ∧
    add_to_queue_text raw = .ok (sanitizeQX raw) ∧
    sanitizeQX raw ≠ raw := by
  have hcon : hasContent (sanitizeQX raw) = true := by
    rw [hasContent_sanitizeQX]; exact hcontent
  have hfind : (sanitizeQX raw).find? (fun c => !valid_chars.contains c) = none := by
    rw [List.find?_eq_none]
    intro c hc
    rw [sanitizeQX_eq_map] at hc
    obtain ⟨a, ha, rfl⟩ := List.mem_map.mp hc
    simp only [Bool.not_eq_true', Bool.not_eq_false]
    exact List.elem_eq_true_of_mem (mapQX_valid a (hchars a ha))
  have hne : sanitizeQX raw ≠ raw := by
    intro heq
    rcases hqx with hq | hx
    · have hmem : 'Q' ∈ sanitizeQX raw := by rw [heq]; exact hq
      rw [sanitizeQX_eq_map] at hmem
      obtain ⟨a, _, h2⟩ := List.mem_map.mp hmem
      exact (mapQX_ne a).1 h2
    · have hmem : 'X' ∈ sanitizeQX raw := by rw [heq]; exact hx
      rw [sanitizeQX_eq_map] at hmem
      obtain ⟨a, _, h2⟩ := List.mem_map.mp hmem
      exact (mapQX_ne a).2 h2
  have hgen : generate_dialog_text raw = .ok (sanitizeQX raw) := by
    simp only [generate_dialog_text]
    rw [hcon, hfind]
    rfl
  have hqueue : add_to_queue_text raw = .ok (sanitizeQX raw) := by
    simp only [add_to_queue_text]
    rw [hcon, hfind]
    rfl
  exact ⟨⟨by decide, by decide⟩, hgen, hqueue, hne⟩

/-- Claim C10, witness: the concrete submitted text `Qx Xq`. -/
theorem C10_witness :
    ((∀ c ∈ pys ("Qx Xq"), c ∈ valid_chars ∨ c = 'Q' ∨ c = 'X') ∧
      hasContent (pys ("Qx Xq")) = true ∧
      ('Q' ∈ pys ("Qx Xq") ∨ 'X' ∈ pys ("Qx Xq"))) ∧
    (('Q' ∉ valid_chars ∧ 'X' ∉ valid_chars) ∧
      generate_dialog_text (pys ("Qx Xq")) = .ok (sanitizeQX (pys ("Qx Xq"))) ∧
      add_to_queue_text (pys ("Qx Xq")) = .ok (sanitizeQX (pys ("Qx Xq"))) ∧
      sanitizeQX (pys ("Qx Xq")) ≠ pys ("Qx Xq")) :=
  ⟨⟨by decide, by decide, by decide⟩,
    C10_theorem (pys ("Qx Xq")) (by decide) (by decide) (by decide)⟩

end Gui
